import Mathlib

/-!
Shallow embedding of the two upload scripts of this repository (the
SDK-delegated variant and the manual-encoding variant of src/og.js).

External collaborators (HTTP client, RPC provider, wallet, storage SDK,
filesystem) are modelled by explicit per-iteration environment records that
fix the outcome of every external call; each modelled function returns the
list of observable external events it performs together with its result.
A thrown JavaScript exception is modelled as the boolean result false of
the function that throws.  The sha256 function of the crypto library is an
explicit parameter of the manual-variant model.  Bytes are natural numbers
below 256; byte strings are lists of such numbers.
-/

namespace UpOg

/-- Lowercase hex rendering of one byte, two characters, as produced by
Buffer.digest applied with the hex encoding. -/
def hexByteChars (b : Nat) : List Char :=
  [Nat.digitChar (b / 16), Nat.digitChar (b % 16)]

/-- Lowercase hex rendering of a byte list. -/
def hexChars : List Nat → List Char
  | [] => []
  | b :: bs => hexByteChars b ++ hexChars bs

/-- Hex string of a byte list. -/
def hexEncode (bs : List Nat) : String :=
  String.mk (hexChars bs)

/-- The 64 characters of the standard base64 alphabet. -/
def base64Alphabet : List Char :=
  "ABCDEFGHIJKLMNOPQRSTUVWXYZabcdefghijklmnopqrstuvwxyz0123456789+/".data

/-- Character of the base64 alphabet at a 6-bit index. -/
def base64Char (n : Nat) : Char :=
  base64Alphabet.getD n '?'

/-- Standard base64 of a byte list, with padding, as produced by
Buffer.toString applied with the base64 encoding. -/
def base64Chars : List Nat → List Char
  | [] => []
  | [a] =>
      [base64Char (a / 4), base64Char (a % 4 * 16), '=', '=']
  | [a, b] =>
      [base64Char (a / 4), base64Char (a % 4 * 16 + b / 16),
       base64Char (b % 16 * 4), '=']
  | a :: b :: c :: rest =>
      [base64Char (a / 4), base64Char (a % 4 * 16 + b / 16),
       base64Char (b % 16 * 4 + c / 64), base64Char (c % 64)] ++
      base64Chars rest

/-- Base64 string of a byte list. -/
def base64Encode (bs : List Nat) : String :=
  String.mk (base64Chars bs)

/-! ## Manual-encoding variant: storage and transaction submission -/

/-- The configuration values the manual variant reads from the environment
after validation (only the two that the upload path consumes). -/
structure ManualSettings where
  indexerURL : String
  contractAddress : String
deriving DecidableEq

/-- The JSON body and addressing of the one indexer POST of the manual
variant: root, index, base64 data and the degenerate proof object whose
sibling list holds only the root and whose path is empty. -/
structure SegmentRequest where
  url : String
  contentType : String
  root : String
  index : Nat
  data : String
  proofSiblings : List String
  proofPath : List Nat
deriving DecidableEq

/-- The transaction request the manual variant hands to
wallet.sendTransaction: recipient, call data bytes, attached value in wei,
explicit gas price in wei and explicit gas limit. -/
structure TxRequest where
  toAddr : String
  data : List Nat
  value : Nat
  gasPrice : Nat
  gasLimit : Nat
deriving DecidableEq

/-- Observable external events of one manual-variant iteration. -/
inductive MEvent where
  | fetchImage : MEvent
  | indexerPost : SegmentRequest → MEvent
  | estimateGas : MEvent
  | sendTx : TxRequest → MEvent
  | waitReceipt : MEvent
  | getBalance : MEvent
deriving DecidableEq

/-- Outcomes of the external calls of one manual-variant iteration.
none models a thrown exception of the corresponding call. -/
structure ManualIterEnv where
  fetchResult : Option (List Nat)
  indexerPostOk : Bool
  contentHashRandom : List Nat
  gasEstimate : Option Nat
  sendOk : Bool
  waitResult : Option Nat
deriving DecidableEq

/-- The fixed four-byte method selector 0xef3e12dc of the hand-built call
data. -/
def methodId : List Nat := [0xef, 0x3e, 0x12, 0xdc]

/-- One 32-byte big-endian ABI word holding a value below 256 (every fixed
word of the call-data template holds such a value). -/
def abiWord (n : Nat) : List Nat := List.replicate 31 0 ++ [n]

/-- The hand-built call data of the manual variant: the method selector,
six fixed ABI words, the 32-byte content hash, and one trailing zero
word. -/
def buildCallData (contentHash : List Nat) : List Nat :=
  methodId ++ abiWord 0x20 ++ abiWord 0x14 ++ abiWord 0x60 ++
    abiWord 0x80 ++ abiWord 0 ++ abiWord 1 ++ contentHash ++ abiWord 0

/-- The 32-byte content-hash field of hand-built call data: it sits after
the 4-byte selector and six 32-byte words, hence at byte offset 196. -/
def contentHashField (d : List Nat) : List Nat :=
  (d.drop 196).take 32

/-- parseEther applied to the literal 0.000839233398436224, in wei. -/
def storageFeeWei : Nat := 839233398436224

/-- parseUnits applied to the literal 1.1 gwei, in wei. -/
def gasPriceWei : Nat := 11 * 10 ^ 8

/-- The fallback gas limit used when estimation fails. -/
def fallbackGasLimit : Nat := 300000

/-- The root sent to the indexer: the sha256 digest of the payload,
hex-encoded, prefixed with 0x. -/
def rootForIndexer (sha256 : List Nat → List Nat) (buf : List Nat) :
    String :=
  "0x" ++ hexEncode (sha256 buf)

/-- The one segment POST of the manual variant for a payload. -/
def segmentRequest (st : ManualSettings) (sha256 : List Nat → List Nat)
    (buf : List Nat) : SegmentRequest :=
  { url := st.indexerURL ++ "/file/segment"
    contentType := "application/json"
    root := rootForIndexer sha256 buf
    index := 0
    data := base64Encode buf
    proofSiblings := [rootForIndexer sha256 buf]
    proofPath := [] }

/-- uploadAndSubmitTransaction of the manual variant: POST the segment to
the indexer, build the call data around a fresh random 32-byte value,
estimate gas with a 1.5 factor and a 300000 fallback, send the transaction
with explicit gas parameters, wait for the receipt, and throw unless the
receipt status is 1.  Returns the event trace and true on success, false
when the original throws at any stage. -/
def uploadAndSubmitTransaction (st : ManualSettings)
    (sha256 : List Nat → List Nat) (env : ManualIterEnv)
    (buf : List Nat) : List MEvent × Bool :=
  let req := segmentRequest st sha256 buf
  if env.indexerPostOk then
    let gasLimit :=
      match env.gasEstimate with
      | some g => g * 15 / 10
      | none => fallbackGasLimit
    let tx : TxRequest :=
      { toAddr := st.contractAddress
        data := buildCallData env.contentHashRandom
        value := storageFeeWei
        gasPrice := gasPriceWei
        gasLimit := gasLimit }
    if env.sendOk then
      match env.waitResult with
      | some status =>
          ([MEvent.indexerPost req, MEvent.estimateGas, MEvent.sendTx tx,
            MEvent.waitReceipt], status == 1)
      | none =>
          ([MEvent.indexerPost req, MEvent.estimateGas, MEvent.sendTx tx,
            MEvent.waitReceipt], false)
    else
      ([MEvent.indexerPost req, MEvent.estimateGas, MEvent.sendTx tx],
        false)
  else
    ([MEvent.indexerPost req], false)

/-- One iteration of the manual-variant loop body: fetch the image, then
uploadAndSubmitTransaction; every thrown failure is caught by the
surrounding try and yields false. -/
def runManualIteration (st : ManualSettings)
    (sha256 : List Nat → List Nat) (env : ManualIterEnv) :
    List MEvent × Bool :=
  match env.fetchResult with
  | none => ([MEvent.fetchImage], false)
  | some buf =>
      let r := uploadAndSubmitTransaction st sha256 env buf
      (MEvent.fetchImage :: r.1, r.2)

/-- The success bit of one manual-variant iteration. -/
def manualOutcome (st : ManualSettings) (sha256 : List Nat → List Nat)
    (env : ManualIterEnv) : Bool :=
  (runManualIteration st sha256 env).2

/-- The manual-variant for loop over the configured iterations: every
iteration runs (its failures are caught), and the successful and failed
counters are incremented per outcome.  Returns the per-iteration results
in order together with the two counters. -/
def runManualBatch (st : ManualSettings) (sha256 : List Nat → List Nat) :
    List ManualIterEnv → List (List MEvent × Bool) × Nat × Nat
  | [] => ([], 0, 0)
  | env :: rest =>
      let r := runManualIteration st sha256 env
      let restRun := runManualBatch st sha256 rest
      (r :: restRun.1,
        (if r.2 then restRun.2.1 + 1 else restRun.2.1),
        (if r.2 then restRun.2.2 else restRun.2.2 + 1))

/-! ## Manual-encoding variant: configuration and main -/

/-- The environment variables the manual variant validates at startup
(none models an absent variable). -/
structure ManualConfig where
  PRIVATE_KEY : Option String
  RPC_URL : Option String
  INDEXER_URL : Option String
  CONTRACT_ADDRESS : Option String
deriving DecidableEq

/-- The manual-variant startup check: all four variables must be
present. -/
def manualConfigOk (c : ManualConfig) : Bool :=
  c.PRIVATE_KEY.isSome && c.RPC_URL.isSome && c.INDEXER_URL.isSome &&
    c.CONTRACT_ADDRESS.isSome

/-- Outcomes of the external calls of one manual-variant run: the
pre-flight balance query (none models a thrown exception) and the
per-iteration environments, one per configured iteration. -/
structure ManualEnv where
  balance : Option Nat
  iters : List ManualIterEnv
deriving DecidableEq

/-- Result of one manual-variant process run: the exit code, the external
events performed, the number of iterations attempted, and the two summary
counters. -/
structure ManualRunResult where
  exitCode : Nat
  events : List MEvent
  attempted : Nat
  successful : Nat
  failed : Nat
deriving DecidableEq

/-- The whole manual-variant process: validate the configuration (exit 1
before any external call when a variable is missing), query the balance
(a throw is caught by the top-level catch, which exits 1), run the loop,
and finish normally with exit code 0. -/
def manualRun (cfg : ManualConfig) (sha256 : List Nat → List Nat)
    (env : ManualEnv) : ManualRunResult :=
  if manualConfigOk cfg then
    let st : ManualSettings :=
      { indexerURL := cfg.INDEXER_URL.getD ""
        contractAddress := cfg.CONTRACT_ADDRESS.getD "" }
    match env.balance with
    | none =>
        { exitCode := 1, events := [MEvent.getBalance], attempted := 0,
          successful := 0, failed := 0 }
    | some _ =>
        let batch := runManualBatch st sha256 env.iters
        { exitCode := 0
          events := MEvent.getBalance :: (batch.1.map Prod.fst).flatten
          attempted := batch.1.length
          successful := batch.2.1
          failed := batch.2.2 }
  else
    { exitCode := 1, events := [], attempted := 0, successful := 0,
      failed := 0 }

/-! ## SDK-delegated variant -/

/-- Observable external events of the SDK variant. -/
inductive SEvent where
  | getNetwork : SEvent
  | getBalance : SEvent
  | fetchImage : SEvent
  | writeFile : String → SEvent
  | sdkUpload : String → SEvent
  | waitReceipt : SEvent
  | unlinkFile : String → SEvent
  | warnCleanup : SEvent
deriving DecidableEq

/-- Outcomes of the external calls of one SDK-variant iteration.
fetchResult none models a thrown image fetch; tempName is the random hex
name drawn for the temporary file; sdkError some models the error value
returned by indexer.upload; waitResult none models a throwing
confirmation wait, some s a receipt with status s; unlinkOk false models a
throwing file deletion. -/
structure SdkIterEnv where
  fetchResult : Option (List Nat)
  tempName : String
  writeOk : Bool
  sdkError : Option String
  waitResult : Option Nat
  unlinkOk : Bool
deriving DecidableEq

/-- The directory of temporary files of the SDK variant. -/
def generatedDir : String := "generated-files"

/-- The temporary file path of one SDK-variant iteration: the generated
directory joined with the random hex name and a jpg extension. -/
def sdkTempPath (name : String) : String :=
  generatedDir ++ "/" ++ name ++ ".jpg"

/-- uploadFileWithSDK of the SDK variant: hand the file path to
indexer.upload, throw when it reports an error value, wait for the
receipt, and throw unless the receipt status is 1.  Returns the event
trace and true on success, false when the original throws. -/
def uploadFileWithSDK (env : SdkIterEnv) (filePath : String) :
    List SEvent × Bool :=
  match env.sdkError with
  | some _ => ([SEvent.sdkUpload filePath], false)
  | none =>
      match env.waitResult with
      | none => ([SEvent.sdkUpload filePath, SEvent.waitReceipt], false)
      | some status =>
          ([SEvent.sdkUpload filePath, SEvent.waitReceipt], status == 1)

/-- One iteration of the SDK-variant loop body: fetch the image, write it
to the temporary path, upload through the SDK; any throw is caught and
counted as a failure; the finally block deletes the temporary file
whenever the path variable was assigned, and a deletion failure is only
logged as a warning. -/
def runSdkIteration (env : SdkIterEnv) : List SEvent × Bool :=
  match env.fetchResult with
  | none => ([SEvent.fetchImage], false)
  | some _ =>
      let p := sdkTempPath env.tempName
      let fin :=
        SEvent.unlinkFile p ::
          (if env.unlinkOk then [] else [SEvent.warnCleanup])
      if env.writeOk then
        let r := uploadFileWithSDK env p
        (SEvent.fetchImage :: SEvent.writeFile p :: (r.1 ++ fin), r.2)
      else
        ([SEvent.fetchImage, SEvent.writeFile p] ++ fin, false)

/-- The success bit of one SDK-variant iteration. -/
def sdkOutcome (env : SdkIterEnv) : Bool :=
  (runSdkIteration env).2

/-- The SDK-variant for loop over the configured iterations, mirroring
the manual one. -/
def runSdkBatch : List SdkIterEnv → List (List SEvent × Bool) × Nat × Nat
  | [] => ([], 0, 0)
  | env :: rest =>
      let r := runSdkIteration env
      let restRun := runSdkBatch rest
      (r :: restRun.1,
        (if r.2 then restRun.2.1 + 1 else restRun.2.1),
        (if r.2 then restRun.2.2 else restRun.2.2 + 1))

/-- The environment variables the SDK variant validates at startup. -/
structure SdkConfig where
  PRIVATE_KEY : Option String
  RPC_URL : Option String
  INDEXER_URL : Option String
deriving DecidableEq

/-- The SDK-variant startup check: the three variables must be
present. -/
def sdkConfigOk (c : SdkConfig) : Bool :=
  c.PRIVATE_KEY.isSome && c.RPC_URL.isSome && c.INDEXER_URL.isSome

/-- Outcomes of the external calls of one SDK-variant run of main:
the pre-flight network and balance queries (none models a throw), whether
the generated directory already exists, and the per-iteration
environments. -/
structure SdkEnv where
  network : Option Nat
  balance : Option Nat
  dirExists : Bool
  iters : List SdkIterEnv
deriving DecidableEq

/-- Result of one run of the SDK-variant main. -/
structure SdkRunResult where
  exitCode : Nat
  events : List SEvent
  attempted : Nat
  successful : Nat
  failed : Nat
deriving DecidableEq

/-- The SDK-variant main: query the network and the balance (a throw is
caught by the top-level catch, which exits 1), run the loop, and finish
normally with exit code 0. -/
def sdkMain (env : SdkEnv) : SdkRunResult :=
  match env.network with
  | none =>
      { exitCode := 1, events := [SEvent.getNetwork], attempted := 0,
        successful := 0, failed := 0 }
  | some _ =>
      match env.balance with
      | none =>
          { exitCode := 1, events := [SEvent.getNetwork, SEvent.getBalance],
            attempted := 0, successful := 0, failed := 0 }
      | some _ =>
          let batch := runSdkBatch env.iters
          { exitCode := 0
            events :=
              SEvent.getNetwork :: SEvent.getBalance ::
                (batch.1.map Prod.fst).flatten
            attempted := batch.1.length
            successful := batch.2.1
            failed := batch.2.2 }

/-- Modelled from the documented API of the external Node fs library: the
function members of the fs.promises namespace (the namespace the SDK
variant imports under the name fs).  The synchronous functions existsSync
and mkdirSync are members of the top-level fs namespace, not of
fs.promises. -/
def fsPromisesMembers : List String :=
  ["access", "appendFile", "chmod", "chown", "copyFile", "cp", "glob",
   "lchmod", "lchown", "lutimes", "link", "lstat", "mkdir", "mkdtemp",
   "open", "opendir", "readdir", "readFile", "readlink", "realpath",
   "rename", "rmdir", "rm", "stat", "statfs", "symlink", "truncate",
   "unlink", "utimes", "watch", "writeFile", "constants"]

/-- Result of SDK-variant module initialization and startup: an explicit
process exit, a crash with a TypeError naming the undefined member called,
or a completed run of main. -/
inductive SdkStartup where
  | exited : Nat → SdkStartup
  | typeError : String → SdkStartup
  | ran : SdkRunResult → SdkStartup
deriving DecidableEq

/-- The whole SDK-variant process, in source order: validate the
configuration (process.exit 1 when a variable is missing), then set up
the generated directory by calling existsSync, and if the directory is
absent mkdirSync, on the imported fs.promises namespace — a call to a
member the namespace does not define throws a TypeError — and only then
run main. -/
def sdkProgram (cfg : SdkConfig) (env : SdkEnv) : SdkStartup :=
  if sdkConfigOk cfg then
    if fsPromisesMembers.contains "existsSync" then
      if env.dirExists then SdkStartup.ran (sdkMain env)
      else if fsPromisesMembers.contains "mkdirSync" then
        SdkStartup.ran (sdkMain env)
      else SdkStartup.typeError "mkdirSync"
    else SdkStartup.typeError "existsSync"
  else SdkStartup.exited 1

/-- The number of upload iterations a startup outcome attempted. -/
def sdkAttempted : SdkStartup → Nat
  | SdkStartup.ran r => r.attempted
  | _ => 0

/-- The external events a startup outcome performed (module
initialization itself performs no external call). -/
def sdkEvents : SdkStartup → List SEvent
  | SdkStartup.ran r => r.events
  | _ => []

/-! ## Observation helpers -/

/-- The indexer POST requests of a manual-variant event trace. -/
def posts (evs : List MEvent) : List SegmentRequest :=
  evs.filterMap fun e =>
    match e with
    | MEvent.indexerPost r => some r
    | _ => none

/-- The transaction requests of a manual-variant event trace. -/
def sentTxs (evs : List MEvent) : List TxRequest :=
  evs.filterMap fun e =>
    match e with
    | MEvent.sendTx t => some t
    | _ => none

/-- The number of file deletions in an SDK-variant event trace. -/
def countUnlinks (evs : List SEvent) : Nat :=
  (evs.filter fun e =>
    match e with
    | SEvent.unlinkFile _ => true
    | _ => false).length

/-- The number of occurrences of a boolean in a list. -/
def countBool (b : Bool) : List Bool → Nat
  | [] => 0
  | x :: xs => (if x = b then 1 else 0) + countBool b xs

/-! ## Helper lemmas -/

lemma runManualBatch_length (st : ManualSettings)
    (sha256 : List Nat → List Nat) (envs : List ManualIterEnv) :
    (runManualBatch st sha256 envs).1.length = envs.length := by
  induction envs with
  | nil => rfl
  | cons e rest ih => simp [runManualBatch, ih]

lemma runManualBatch_counts (st : ManualSettings)
    (sha256 : List Nat → List Nat) (envs : List ManualIterEnv) :
    (runManualBatch st sha256 envs).2.1 =
      countBool true (envs.map (manualOutcome st sha256)) ∧
    (runManualBatch st sha256 envs).2.2 =
      countBool false (envs.map (manualOutcome st sha256)) := by
  induction envs with
  | nil => exact ⟨rfl, rfl⟩
  | cons e rest ih =>
      rcases ih with ⟨ih1, ih2⟩
      cases hb : (runManualIteration st sha256 e).2 <;>
        simp [runManualBatch, countBool, manualOutcome, hb, ih1, ih2] <;>
        omega

lemma runSdkBatch_length (envs : List SdkIterEnv) :
    (runSdkBatch envs).1.length = envs.length := by
  induction envs with
  | nil => rfl
  | cons e rest ih => simp [runSdkBatch, ih]

lemma runSdkBatch_counts (envs : List SdkIterEnv) :
    (runSdkBatch envs).2.1 = countBool true (envs.map sdkOutcome) ∧
    (runSdkBatch envs).2.2 = countBool false (envs.map sdkOutcome) := by
  induction envs with
  | nil => exact ⟨rfl, rfl⟩
  | cons e rest ih =>
      rcases ih with ⟨ih1, ih2⟩
      cases hb : (runSdkIteration e).2 <;>
        simp [runSdkBatch, countBool, sdkOutcome, hb, ih1, ih2] <;>
        omega

lemma countBool_all_true {α : Type} (f : α → Bool) (l : List α)
    (h : ∀ j (hj : j < l.length), f (l.get ⟨j, hj⟩) = true) :
    countBool true (l.map f) = l.length ∧
    countBool false (l.map f) = 0 := by
  induction l with
  | nil => exact ⟨rfl, rfl⟩
  | cons x t ih =>
      have hx : f x = true := h 0 (by simp)
      have ht : ∀ j (hj : j < t.length), f (t.get ⟨j, hj⟩) = true := by
        intro j hj
        have := h (j + 1) (by simpa using Nat.succ_lt_succ hj)
        simpa using this
      rcases ih ht with ⟨h1, h2⟩
      refine ⟨?_, ?_⟩
      · have hc : countBool true (f x :: t.map f) =
            1 + countBool true (t.map f) := by
          simp [countBool, hx]
        rw [List.map_cons, hc, h1, List.length_cons]
        omega
      · have hc : countBool false (f x :: t.map f) =
            countBool false (t.map f) := by
          simp [countBool, hx]
        rw [List.map_cons, hc, h2]

lemma countBool_one_false {α : Type} (f : α → Bool) (l : List α) :
    ∀ (k : Nat) (hk : k < l.length), f (l.get ⟨k, hk⟩) = false →
    (∀ j (hj : j < l.length), j ≠ k → f (l.get ⟨j, hj⟩) = true) →
    countBool true (l.map f) = l.length - 1 ∧
    countBool false (l.map f) = 1 := by
  induction l with
  | nil => intro k hk; exact absurd hk (by simp)
  | cons x t ih =>
      intro k hk hfalse htrue
      cases k with
      | zero =>
          have hx : f x = false := hfalse
          have ht : ∀ j (hj : j < t.length), f (t.get ⟨j, hj⟩) = true := by
            intro j hj
            have := htrue (j + 1) (by simpa using Nat.succ_lt_succ hj)
              (by simp)
            simpa using this
          rcases countBool_all_true f t ht with ⟨h1, h2⟩
          refine ⟨?_, ?_⟩
          · have hc : countBool true (f x :: t.map f) =
                countBool true (t.map f) := by
              simp [countBool, hx]
            rw [List.map_cons, hc, h1, List.length_cons]
            omega
          · have hc : countBool false (f x :: t.map f) =
                1 + countBool false (t.map f) := by
              simp [countBool, hx]
            rw [List.map_cons, hc, h2]
      | succ k =>
          have hx : f x = true := htrue 0 (by simp) (by simp)
          have hk' : k < t.length := by
            simpa using Nat.lt_of_succ_lt_succ hk
          have hf' : f (t.get ⟨k, hk'⟩) = false := by simpa using hfalse
          have ht' : ∀ j (hj : j < t.length), j ≠ k →
              f (t.get ⟨j, hj⟩) = true := by
            intro j hj hjk
            have := htrue (j + 1) (by simpa using Nat.succ_lt_succ hj)
              (by simpa using hjk)
            simpa using this
          rcases ih k hk' hf' ht' with ⟨h1, h2⟩
          have hpos : 1 ≤ t.length :=
            Nat.one_le_of_lt (Nat.lt_of_le_of_lt (Nat.zero_le k) hk')
          refine ⟨?_, ?_⟩
          · have hc : countBool true (f x :: t.map f) =
                1 + countBool true (t.map f) := by
              simp [countBool, hx]
            rw [List.map_cons, hc, h1, List.length_cons]
            omega
          · have hc : countBool false (f x :: t.map f) =
                countBool false (t.map f) := by
              simp [countBool, hx]
            rw [List.map_cons, hc, h2]

/-! ## Claims -/

/-- Claim C4: in the SDK-delegated variant, for every configuration that
passes the required-variable check, module initialization calls existsSync
on the imported fs.promises namespace, which does not define it; startup
therefore raises a TypeError before the main loop runs, so no upload
iteration is ever attempted. -/
theorem claim_C4 (cfg : SdkConfig) (env : SdkEnv)
    (h : sdkConfigOk cfg = true) :
    sdkProgram cfg env = SdkStartup.typeError "existsSync" ∧
    sdkAttempted (sdkProgram cfg env) = 0 := by
  have hmem : "existsSync" ∉ fsPromisesMembers := by decide
  constructor
  · simp [sdkProgram, h, hmem]
  · simp [sdkProgram, h, hmem, sdkAttempted]

/-- Witness for claim C4 at a concrete complete configuration. -/
theorem claim_C4_witness :
    sdkProgram ⟨some "k", some "r", some "i"⟩
        ⟨some 1, some 0, true, []⟩ =
      SdkStartup.typeError "existsSync" ∧
    sdkAttempted
        (sdkProgram ⟨some "k", some "r", some "i"⟩
          ⟨some 1, some 0, true, []⟩) = 0 :=
  claim_C4 ⟨some "k", some "r", some "i"⟩ ⟨some 1, some 0, true, []⟩
    (by decide)

/-- Claim C5: if the signing key, RPC endpoint or indexer endpoint is
absent, the process exits with exit code 1 before performing any network
call and before attempting any iteration, in both variants. -/
theorem claim_C5 (mcfg : ManualConfig) (scfg : SdkConfig)
    (sha256 : List Nat → List Nat) (menv : ManualEnv) (senv : SdkEnv)
    (hm : mcfg.PRIVATE_KEY = none ∨ mcfg.RPC_URL = none ∨
      mcfg.INDEXER_URL = none)
    (hs : scfg.PRIVATE_KEY = none ∨ scfg.RPC_URL = none ∨
      scfg.INDEXER_URL = none) :
    manualRun mcfg sha256 menv =
      { exitCode := 1, events := [], attempted := 0, successful := 0,
        failed := 0 } ∧
    sdkProgram scfg senv = SdkStartup.exited 1 ∧
    sdkEvents (sdkProgram scfg senv) = [] ∧
    sdkAttempted (sdkProgram scfg senv) = 0 := by
  have hmo : manualConfigOk mcfg = false := by
    rcases hm with h | h | h <;> simp [manualConfigOk, h]
  have hso : sdkConfigOk scfg = false := by
    rcases hs with h | h | h <;> simp [sdkConfigOk, h]
  refine ⟨?_, ?_, ?_, ?_⟩
  · simp [manualRun, hmo]
  · simp [sdkProgram, hso]
  · simp [sdkProgram, hso, sdkEvents]
  · simp [sdkProgram, hso, sdkAttempted]

/-- Witness for claim C5 at concrete configurations missing the signing
key. -/
theorem claim_C5_witness :
    manualRun ⟨none, some "r", some "i", some "c"⟩ (fun _ => [])
        ⟨some 0, []⟩ =
      { exitCode := 1, events := [], attempted := 0, successful := 0,
        failed := 0 } ∧
    sdkProgram ⟨none, some "r", some "i"⟩ ⟨some 1, some 0, true, []⟩ =
      SdkStartup.exited 1 ∧
    sdkEvents
        (sdkProgram ⟨none, some "r", some "i"⟩
          ⟨some 1, some 0, true, []⟩) = [] ∧
    sdkAttempted
        (sdkProgram ⟨none, some "r", some "i"⟩
          ⟨some 1, some 0, true, []⟩) = 0 :=
  claim_C5 ⟨none, some "r", some "i", some "c"⟩ ⟨none, some "r", some "i"⟩
    (fun _ => []) ⟨some 0, []⟩ ⟨some 1, some 0, true, []⟩
    (Or.inl rfl) (Or.inl rfl)

/-- Claim C9: when the batch completes normally (the pre-flight balance
query did not throw), the manual-variant process exits with code 0
regardless of how many iterations failed; exit code 1 occurs exactly on
missing configuration or on an error escaping the per-iteration boundary,
of which the modelled one is the pre-flight balance query throwing. -/
theorem claim_C9 (cfg : ManualConfig) (sha256 : List Nat → List Nat)
    (env : ManualEnv) :
    ((manualRun cfg sha256 env).exitCode = 0 ↔
      (manualConfigOk cfg = true ∧ env.balance.isSome = true)) ∧
    ((manualRun cfg sha256 env).exitCode = 1 ↔
      (manualConfigOk cfg = false ∨ env.balance = none)) := by
  cases h : manualConfigOk cfg <;>
    cases hb : env.balance <;>
      simp [manualRun, h, hb]

/-- Claim C10: the pre-flight balance query is observational only — two
runs differing solely in the balance value returned attempt the same
iterations and produce identical results (exit code, events, attempted
count and both counters), in either variant; in particular an
insufficient balance never aborts the batch. -/
theorem claim_C10 (mcfg : ManualConfig) (sha256 : List Nat → List Nat)
    (menv : ManualEnv) (senv : SdkEnv) (b1 b2 : Nat) :
    manualRun mcfg sha256 { menv with balance := some b1 } =
      manualRun mcfg sha256 { menv with balance := some b2 } ∧
    sdkMain { senv with balance := some b1 } =
      sdkMain { senv with balance := some b2 } := by
  constructor
  · cases h : manualConfigOk mcfg <;> simp [manualRun, h]
  · cases hn : senv.network <;> simp [sdkMain, hn]

/-- Claim C7: the manual-encoding Storage Submitter performs exactly one
POST per iteration, to the file/segment route of the indexer URL, with
content type application/json, whose body carries the sha256 digest of
the full payload hex-encoded behind a fixed 0x prefix as root, index 0,
the payload base64-encoded as a single segment, and the degenerate proof
whose sibling list holds only the root and whose path is empty. -/
theorem claim_C7 (st : ManualSettings) (sha256 : List Nat → List Nat)
    (env : ManualIterEnv) (buf : List Nat)
    (h : env.fetchResult = some buf) :
    posts (runManualIteration st sha256 env).1 =
      [{ url := st.indexerURL ++ "/file/segment"
         contentType := "application/json"
         root := "0x" ++ hexEncode (sha256 buf)
         index := 0
         data := base64Encode buf
         proofSiblings := ["0x" ++ hexEncode (sha256 buf)]
         proofPath := [] }] := by
  cases hp : env.indexerPostOk <;>
    cases hs : env.sendOk <;>
      cases hw : env.waitResult <;>
        simp [runManualIteration, h, uploadAndSubmitTransaction, posts,
          segmentRequest, rootForIndexer, hp, hs, hw]

/-- Witness for claim C7 at a concrete payload and digest function. -/
theorem claim_C7_witness :
    posts (runManualIteration ⟨"http://idx", "0xc"⟩ (fun _ => [0, 255])
        ⟨some [1, 2, 3], true, [7], some 10, true, some 1⟩).1 =
      [{ url := "http://idx" ++ "/file/segment"
         contentType := "application/json"
         root := "0x" ++ hexEncode [0, 255]
         index := 0
         data := base64Encode [1, 2, 3]
         proofSiblings := ["0x" ++ hexEncode [0, 255]]
         proofPath := [] }] :=
  claim_C7 ⟨"http://idx", "0xc"⟩ (fun _ => [0, 255])
    ⟨some [1, 2, 3], true, [7], some 10, true, some 1⟩ [1, 2, 3] rfl

/-- Claim C8: in the manual-encoding variant, when gas estimation returns
an estimate the transaction is sent with gas limit equal to the floor of
the estimate times 15 over 10; when estimation fails the gas limit is the
fixed default 300000; and in both cases the gas price is set explicitly
to 1.1 gwei, that is 1100000000 wei (the attached value being the fixed
fee of 839233398436224 wei). -/
theorem claim_C8 (st : ManualSettings) (sha256 : List Nat → List Nat)
    (env : ManualIterEnv) (buf : List Nat) (g : Nat)
    (hpost : env.indexerPostOk = true) :
    (env.gasEstimate = some g →
      sentTxs (uploadAndSubmitTransaction st sha256 env buf).1 =
        [{ toAddr := st.contractAddress
           data := buildCallData env.contentHashRandom
           value := 839233398436224
           gasPrice := 1100000000
           gasLimit := g * 15 / 10 }]) ∧
    (env.gasEstimate = none →
      sentTxs (uploadAndSubmitTransaction st sha256 env buf).1 =
        [{ toAddr := st.contractAddress
           data := buildCallData env.contentHashRandom
           value := 839233398436224
           gasPrice := 1100000000
           gasLimit := 300000 }]) := by
  constructor <;> intro hg <;>
    cases hs : env.sendOk <;>
      cases hw : env.waitResult <;>
        simp [uploadAndSubmitTransaction, sentTxs, hpost, hg, hs, hw,
          storageFeeWei, gasPriceWei, fallbackGasLimit]

/-- Witness for claim C8 at a concrete estimate of 101 units. -/
theorem claim_C8_witness :
    ((⟨some [1], true, [7], some 101, true, some 1⟩ :
        ManualIterEnv).gasEstimate = some 101 →
      sentTxs (uploadAndSubmitTransaction ⟨"i", "c"⟩ (fun _ => [])
          ⟨some [1], true, [7], some 101, true, some 1⟩ [1]).1 =
        [{ toAddr := "c"
           data := buildCallData [7]
           value := 839233398436224
           gasPrice := 1100000000
           gasLimit := 101 * 15 / 10 }]) ∧
    ((⟨some [1], true, [7], some 101, true, some 1⟩ :
        ManualIterEnv).gasEstimate = none →
      sentTxs (uploadAndSubmitTransaction ⟨"i", "c"⟩ (fun _ => [])
          ⟨some [1], true, [7], some 101, true, some 1⟩ [1]).1 =
        [{ toAddr := "c"
           data := buildCallData [7]
           value := 839233398436224
           gasPrice := 1100000000
           gasLimit := 300000 }]) :=
  claim_C8 ⟨"i", "c"⟩ (fun _ => [])
    ⟨some [1], true, [7], some 101, true, some 1⟩ [1] 101 rfl

/-- Claim C2: whenever the confirmation receipt carries a status other
than the canonical success value 1, the upload function throws, the
iteration is recorded as a failure (the failure counter, never the
success counter, is incremented) — in the manual variant and in the SDK
variant alike. -/
theorem claim_C2 (st : ManualSettings) (sha256 : List Nat → List Nat)
    (env : ManualIterEnv) (buf : List Nat) (s : Nat)
    (rest : List ManualIterEnv) (senv : SdkIterEnv) (buf2 : List Nat)
    (srest : List SdkIterEnv) (s2 : Nat)
    (hfetch : env.fetchResult = some buf)
    (hpost : env.indexerPostOk = true)
    (hsend : env.sendOk = true)
    (hwait : env.waitResult = some s) (hs : s ≠ 1)
    (hsfetch : senv.fetchResult = some buf2)
    (hswrite : senv.writeOk = true)
    (hserr : senv.sdkError = none)
    (hswait : senv.waitResult = some s2) (hs2 : s2 ≠ 1) :
    (uploadAndSubmitTransaction st sha256 env buf).2 = false ∧
    manualOutcome st sha256 env = false ∧
    (runManualBatch st sha256 (env :: rest)).2.1 =
      (runManualBatch st sha256 rest).2.1 ∧
    (runManualBatch st sha256 (env :: rest)).2.2 =
      (runManualBatch st sha256 rest).2.2 + 1 ∧
    (∀ p, (uploadFileWithSDK senv p).2 = false) ∧
    sdkOutcome senv = false ∧
    (runSdkBatch (senv :: srest)).2.1 = (runSdkBatch srest).2.1 ∧
    (runSdkBatch (senv :: srest)).2.2 = (runSdkBatch srest).2.2 + 1 := by
  have h1 : (uploadAndSubmitTransaction st sha256 env buf).2 = false := by
    simp [uploadAndSubmitTransaction, hpost, hsend, hwait, hs]
  have h2 : (runManualIteration st sha256 env).2 = false := by
    simp [runManualIteration, hfetch, h1]
  have h3 : ∀ p, (uploadFileWithSDK senv p).2 = false := by
    intro p
    simp [uploadFileWithSDK, hserr, hswait, hs2]
  have h4 : (runSdkIteration senv).2 = false := by
    simp [runSdkIteration, hsfetch, hswrite, h3]
  refine ⟨h1, h2, ?_, ?_, h3, h4, ?_, ?_⟩ <;>
    simp [runManualBatch, runSdkBatch, h2, h4]

/-- Witness for claim C2 at a failed receipt status of 0 in both
variants. -/
theorem claim_C2_witness :
    (uploadAndSubmitTransaction ⟨"i", "c"⟩ (fun _ => [])
        ⟨some [1], true, [7], some 10, true, some 0⟩ [1]).2 = false ∧
    manualOutcome ⟨"i", "c"⟩ (fun _ => [])
        ⟨some [1], true, [7], some 10, true, some 0⟩ = false ∧
    (runManualBatch ⟨"i", "c"⟩ (fun _ => [])
        (⟨some [1], true, [7], some 10, true, some 0⟩ :: [])).2.1 =
      (runManualBatch ⟨"i", "c"⟩ (fun _ => []) []).2.1 ∧
    (runManualBatch ⟨"i", "c"⟩ (fun _ => [])
        (⟨some [1], true, [7], some 10, true, some 0⟩ :: [])).2.2 =
      (runManualBatch ⟨"i", "c"⟩ (fun _ => []) []).2.2 + 1 ∧
    (∀ p,
      (uploadFileWithSDK ⟨some [2], "t", true, none, some 0, true⟩ p).2 =
        false) ∧
    sdkOutcome ⟨some [2], "t", true, none, some 0, true⟩ = false ∧
    (runSdkBatch
        (⟨some [2], "t", true, none, some 0, true⟩ :: [])).2.1 =
      (runSdkBatch []).2.1 ∧
    (runSdkBatch
        (⟨some [2], "t", true, none, some 0, true⟩ :: [])).2.2 =
      (runSdkBatch []).2.2 + 1 :=
  claim_C2 ⟨"i", "c"⟩ (fun _ => [])
    ⟨some [1], true, [7], some 10, true, some 0⟩ [1] 0 []
    ⟨some [2], "t", true, none, some 0, true⟩ [2] [] 0
    rfl rfl rfl rfl (by decide) rfl rfl rfl rfl (by decide)

/-- Claim C6: in the SDK-delegated variant, every iteration that created
a temporary file invokes the file deletion exactly once, on the success
and on the failure exit path alike (within that iteration, hence before
the next iteration starts); a failure of the deletion itself is only
logged as a warning, never flips the iteration outcome, never changes
either counter, and never aborts the batch. -/
theorem claim_C6 (env : SdkIterEnv) (buf : List Nat)
    (rest : List SdkIterEnv)
    (hfetch : env.fetchResult = some buf) (hwrite : env.writeOk = true) :
    countUnlinks (runSdkIteration env).1 = 1 ∧
    (runSdkIteration { env with unlinkOk := false }).2 =
      (runSdkIteration { env with unlinkOk := true }).2 ∧
    (env.unlinkOk = false →
      SEvent.warnCleanup ∈ (runSdkIteration env).1) ∧
    (runSdkBatch ({ env with unlinkOk := false } :: rest)).1.length =
      rest.length + 1 ∧
    (runSdkBatch ({ env with unlinkOk := false } :: rest)).2.1 =
      (runSdkBatch ({ env with unlinkOk := true } :: rest)).2.1 ∧
    (runSdkBatch ({ env with unlinkOk := false } :: rest)).2.2 =
      (runSdkBatch ({ env with unlinkOk := true } :: rest)).2.2 := by
  cases he : env.sdkError <;>
    cases hw : env.waitResult <;>
      cases hu : env.unlinkOk <;>
        simp [runSdkIteration, uploadFileWithSDK, countUnlinks,
          runSdkBatch, sdkOutcome, runSdkBatch_length, hfetch, hwrite,
          he, hw, hu]

/-- Witness for claim C6 at a concrete iteration whose upload succeeds
but whose cleanup throws. -/
theorem claim_C6_witness :
    countUnlinks
        (runSdkIteration ⟨some [1], "t", true, none, some 1, false⟩).1 =
      1 ∧
    (runSdkIteration
        ({ (⟨some [1], "t", true, none, some 1, false⟩ : SdkIterEnv) with
          unlinkOk := false })).2 =
      (runSdkIteration
        ({ (⟨some [1], "t", true, none, some 1, false⟩ : SdkIterEnv) with
          unlinkOk := true })).2 ∧
    ((⟨some [1], "t", true, none, some 1, false⟩ :
        SdkIterEnv).unlinkOk = false →
      SEvent.warnCleanup ∈
        (runSdkIteration ⟨some [1], "t", true, none, some 1, false⟩).1) ∧
    (runSdkBatch
        ({ (⟨some [1], "t", true, none, some 1, false⟩ : SdkIterEnv) with
          unlinkOk := false } :: [])).1.length =
      ([] : List SdkIterEnv).length + 1 ∧
    (runSdkBatch
        ({ (⟨some [1], "t", true, none, some 1, false⟩ : SdkIterEnv) with
          unlinkOk := false } :: [])).2.1 =
      (runSdkBatch
        ({ (⟨some [1], "t", true, none, some 1, false⟩ : SdkIterEnv) with
          unlinkOk := true } :: [])).2.1 ∧
    (runSdkBatch
        ({ (⟨some [1], "t", true, none, some 1, false⟩ : SdkIterEnv) with
          unlinkOk := false } :: [])).2.2 =
      (runSdkBatch
        ({ (⟨some [1], "t", true, none, some 1, false⟩ : SdkIterEnv) with
          unlinkOk := true } :: [])).2.2 :=
  claim_C6 ⟨some [1], "t", true, none, some 1, false⟩ [1] [] rfl rfl

/-- Claim C1: per-iteration failure isolation — for a configured
iteration count N, if exactly one iteration k fails (at any stage) and
all other iterations succeed, the batch loop catches the failure, still
attempts every later iteration (the run holds a result for each of the N
iterations), and the final summary reports exactly N minus 1 successes
and 1 failure; in the manual and the SDK variant alike. -/
theorem claim_C1 (st : ManualSettings) (sha256 : List Nat → List Nat)
    (envsM : List ManualIterEnv) (envsS : List SdkIterEnv) (k l : Nat)
    (hkM : k < envsM.length)
    (hfM : manualOutcome st sha256 (envsM.get ⟨k, hkM⟩) = false)
    (hoM : ∀ j (hj : j < envsM.length), j ≠ k →
      manualOutcome st sha256 (envsM.get ⟨j, hj⟩) = true)
    (hkS : l < envsS.length)
    (hfS : sdkOutcome (envsS.get ⟨l, hkS⟩) = false)
    (hoS : ∀ j (hj : j < envsS.length), j ≠ l →
      sdkOutcome (envsS.get ⟨j, hj⟩) = true) :
    (runManualBatch st sha256 envsM).1.length = envsM.length ∧
    (runManualBatch st sha256 envsM).2.1 = envsM.length - 1 ∧
    (runManualBatch st sha256 envsM).2.2 = 1 ∧
    (runSdkBatch envsS).1.length = envsS.length ∧
    (runSdkBatch envsS).2.1 = envsS.length - 1 ∧
    (runSdkBatch envsS).2.2 = 1 := by
  rcases countBool_one_false (manualOutcome st sha256) envsM k hkM hfM hoM
    with ⟨hM1, hM2⟩
  rcases countBool_one_false sdkOutcome envsS l hkS hfS hoS with ⟨hS1, hS2⟩
  rcases runManualBatch_counts st sha256 envsM with ⟨hc1, hc2⟩
  rcases runSdkBatch_counts envsS with ⟨hd1, hd2⟩
  exact ⟨runManualBatch_length st sha256 envsM, hc1.trans hM1,
    hc2.trans hM2, runSdkBatch_length envsS, hd1.trans hS1,
    hd2.trans hS2⟩

/-- Witness for claim C1 with N equal to 3 and the middle iteration
failing at the image fetch, in both variants. -/
theorem claim_C1_witness :
    (runManualBatch ⟨"i", "c"⟩ (fun _ => [])
        [⟨some [1], true, [7], some 10, true, some 1⟩,
         ⟨none, true, [7], some 10, true, some 1⟩,
         ⟨some [1], true, [7], some 10, true, some 1⟩]).1.length =
      ([⟨some [1], true, [7], some 10, true, some 1⟩,
        ⟨none, true, [7], some 10, true, some 1⟩,
        ⟨some [1], true, [7], some 10, true, some 1⟩] :
          List ManualIterEnv).length ∧
    (runManualBatch ⟨"i", "c"⟩ (fun _ => [])
        [⟨some [1], true, [7], some 10, true, some 1⟩,
         ⟨none, true, [7], some 10, true, some 1⟩,
         ⟨some [1], true, [7], some 10, true, some 1⟩]).2.1 =
      ([⟨some [1], true, [7], some 10, true, some 1⟩,
        ⟨none, true, [7], some 10, true, some 1⟩,
        ⟨some [1], true, [7], some 10, true, some 1⟩] :
          List ManualIterEnv).length - 1 ∧
    (runManualBatch ⟨"i", "c"⟩ (fun _ => [])
        [⟨some [1], true, [7], some 10, true, some 1⟩,
         ⟨none, true, [7], some 10, true, some 1⟩,
         ⟨some [1], true, [7], some 10, true, some 1⟩]).2.2 = 1 ∧
    (runSdkBatch
        [⟨some [1], "t", true, none, some 1, true⟩,
         ⟨none, "t", true, none, some 1, true⟩,
         ⟨some [1], "t", true, none, some 1, true⟩]).1.length =
      ([⟨some [1], "t", true, none, some 1, true⟩,
        ⟨none, "t", true, none, some 1, true⟩,
        ⟨some [1], "t", true, none, some 1, true⟩] :
          List SdkIterEnv).length ∧
    (runSdkBatch
        [⟨some [1], "t", true, none, some 1, true⟩,
         ⟨none, "t", true, none, some 1, true⟩,
         ⟨some [1], "t", true, none, some 1, true⟩]).2.1 =
      ([⟨some [1], "t", true, none, some 1, true⟩,
        ⟨none, "t", true, none, some 1, true⟩,
        ⟨some [1], "t", true, none, some 1, true⟩] :
          List SdkIterEnv).length - 1 ∧
    (runSdkBatch
        [⟨some [1], "t", true, none, some 1, true⟩,
         ⟨none, "t", true, none, some 1, true⟩,
         ⟨some [1], "t", true, none, some 1, true⟩]).2.2 = 1 :=
  claim_C1 ⟨"i", "c"⟩ (fun _ => [])
    [⟨some [1], true, [7], some 10, true, some 1⟩,
     ⟨none, true, [7], some 10, true, some 1⟩,
     ⟨some [1], true, [7], some 10, true, some 1⟩]
    [⟨some [1], "t", true, none, some 1, true⟩,
     ⟨none, "t", true, none, some 1, true⟩,
     ⟨some [1], "t", true, none, some 1, true⟩]
    1 1 (by decide) (by decide) (by decide) (by decide) (by decide)
    (by decide)

lemma digitChar_inj_fin :
    ∀ a b : Fin 16, Nat.digitChar a.val = Nat.digitChar b.val → a = b := by
  decide

lemma digitChar_inj (a b : Nat) (ha : a < 16) (hb : b < 16)
    (h : Nat.digitChar a = Nat.digitChar b) : a = b := by
  have := digitChar_inj_fin ⟨a, ha⟩ ⟨b, hb⟩ h
  simpa using congrArg Fin.val this

lemma hexChars_inj (xs : List Nat) :
    ∀ ys : List Nat, (∀ b ∈ xs, b < 256) → (∀ b ∈ ys, b < 256) →
    hexChars xs = hexChars ys → xs = ys := by
  induction xs with
  | nil =>
      intro ys _ _ h
      cases ys with
      | nil => rfl
      | cons y u => simp [hexChars, hexByteChars] at h
  | cons x t ih =>
      intro ys hx hy h
      cases ys with
      | nil => simp [hexChars, hexByteChars] at h
      | cons y u =>
          simp only [hexChars, hexByteChars, List.cons_append,
            List.nil_append, List.cons.injEq] at h
          rcases h with ⟨h1, h2, h3⟩
          have hxb : x < 256 := hx x (by simp)
          have hyb : y < 256 := hy y (by simp)
          have e1 : x / 16 = y / 16 :=
            digitChar_inj _ _ (by omega) (by omega) h1
          have e2 : x % 16 = y % 16 :=
            digitChar_inj _ _ (by omega) (by omega) h2
          have exy : x = y := by omega
          have et : t = u :=
            ih u (fun b hb => hx b (by simp [hb]))
              (fun b hb => hy b (by simp [hb])) h3
          rw [exy, et]

lemma hexRoot_inj (xs ys : List Nat) (hx : ∀ b ∈ xs, b < 256)
    (hy : ∀ b ∈ ys, b < 256)
    (h : "0x" ++ hexEncode xs = "0x" ++ hexEncode ys) : xs = ys := by
  have hd : ('0' :: 'x' :: hexChars xs) = ('0' :: 'x' :: hexChars ys) :=
    congrArg String.data h
  have hc : hexChars xs = hexChars ys := by simpa using hd
  exact hexChars_inj xs ys hx hy hc

set_option maxRecDepth 8000 in
lemma contentHashField_buildCallData (rnd : List Nat)
    (h : rnd.length = 32) : contentHashField (buildCallData rnd) = rnd := by
  have hb : buildCallData rnd =
      (methodId ++ abiWord 0x20 ++ abiWord 0x14 ++ abiWord 0x60 ++
        abiWord 0x80 ++ abiWord 0 ++ abiWord 1) ++ (rnd ++ abiWord 0) := by
    simp [buildCallData, List.append_assoc]
  have hlen : (methodId ++ abiWord 0x20 ++ abiWord 0x14 ++ abiWord 0x60 ++
      abiWord 0x80 ++ abiWord 0 ++ abiWord 1).length = 196 := by
    simp [methodId, abiWord]
  unfold contentHashField
  rw [hb, List.drop_left' hlen, List.take_left' h]

/-- Claim C3: in the manual-encoding variant, the 32-byte content-hash
field substituted into the call data is exactly the freshly drawn random
value — the call data does not depend on the payload at all — while the
root uploaded to the storage indexer is the sha256 digest of the payload;
and whenever the random value is not that digest (all but a negligible
fraction of draws), the hex rendering of the on-chain value differs from
the indexer root. -/
theorem claim_C3 (st : ManualSettings) (sha256 : List Nat → List Nat)
    (env : ManualIterEnv) (buf buf2 : List Nat)
    (hpost : env.indexerPostOk = true)
    (hlen : env.contentHashRandom.length = 32)
    (hrb : ∀ b ∈ env.contentHashRandom, b < 256)
    (hsb : ∀ b ∈ sha256 buf, b < 256) :
    (sentTxs (uploadAndSubmitTransaction st sha256 env buf).1).map
        (fun t => contentHashField t.data) = [env.contentHashRandom] ∧
    (sentTxs (uploadAndSubmitTransaction st sha256 env buf).1).map
        TxRequest.data =
      (sentTxs (uploadAndSubmitTransaction st sha256 env buf2).1).map
        TxRequest.data ∧
    (posts (uploadAndSubmitTransaction st sha256 env buf).1).map
        SegmentRequest.root = ["0x" ++ hexEncode (sha256 buf)] ∧
    (env.contentHashRandom ≠ sha256 buf →
      "0x" ++ hexEncode env.contentHashRandom ≠
        rootForIndexer sha256 buf) := by
  refine ⟨?_, ?_, ?_, ?_⟩
  · cases hs : env.sendOk <;>
      cases hw : env.waitResult <;>
        simp [uploadAndSubmitTransaction, sentTxs, hpost, hs, hw,
          contentHashField_buildCallData env.contentHashRandom hlen]
  · cases hs : env.sendOk <;>
      cases hw : env.waitResult <;>
        simp [uploadAndSubmitTransaction, sentTxs, hpost, hs, hw]
  · cases hs : env.sendOk <;>
      cases hw : env.waitResult <;>
        simp [uploadAndSubmitTransaction, posts, segmentRequest,
          rootForIndexer, hpost, hs, hw]
  · intro hne h
    exact hne (hexRoot_inj _ _ hrb hsb h)

/-- Witness for claim C3 at a concrete random value that differs from the
concrete digest. -/
theorem claim_C3_witness :
    (sentTxs (uploadAndSubmitTransaction ⟨"i", "c"⟩
        (fun _ => List.replicate 32 0)
        ⟨some [5], true, 1 :: List.replicate 31 0, some 10, true, some 1⟩
        [5]).1).map (fun t => contentHashField t.data) =
      [1 :: List.replicate 31 0] ∧
    (sentTxs (uploadAndSubmitTransaction ⟨"i", "c"⟩
        (fun _ => List.replicate 32 0)
        ⟨some [5], true, 1 :: List.replicate 31 0, some 10, true, some 1⟩
        [5]).1).map TxRequest.data =
      (sentTxs (uploadAndSubmitTransaction ⟨"i", "c"⟩
        (fun _ => List.replicate 32 0)
        ⟨some [5], true, 1 :: List.replicate 31 0, some 10, true, some 1⟩
        [6]).1).map TxRequest.data ∧
    (posts (uploadAndSubmitTransaction ⟨"i", "c"⟩
        (fun _ => List.replicate 32 0)
        ⟨some [5], true, 1 :: List.replicate 31 0, some 10, true, some 1⟩
        [5]).1).map SegmentRequest.root =
      ["0x" ++ hexEncode (List.replicate 32 0)] ∧
    ((1 :: List.replicate 31 0 : List Nat) ≠ List.replicate 32 0 →
      "0x" ++ hexEncode (1 :: List.replicate 31 0) ≠
        rootForIndexer (fun _ => List.replicate 32 0) [5]) :=
  claim_C3 ⟨"i", "c"⟩ (fun _ => List.replicate 32 0)
    ⟨some [5], true, 1 :: List.replicate 31 0, some 10, true, some 1⟩
    [5] [6] rfl (by decide) (by decide) (by decide)

end UpOg
